import Mathlib

/-!
Shallow embedding of `src/mental_health_app.py` (Mental-Health-AI-Helper).

The program classifies a user message by substring keyword matching,
selects a static guide (appending crisis resources for panic/depression),
optionally expands it through an external generative service, and falls
back to a local generator and finally to a fixed apology string.
External services (the Gemini handle `GEMINI_MODEL` and the local
`generator` pipeline) are modelled as optional functions from the prompt
to an optional reply; `none` for the handle means the service is not
configured, and `none` for a reply covers an exception as well as a
response with no usable text.  A Flask route wraps `generate_response`
behind a JSON interface, and a session mood log appends timestamped
entries.
-/

/-- The five topics of §3 of the spec.  The source has no explicit type for
them; they are the five arms of `generate_response`. -/
inductive Topic where
  | stress
  | panic
  | depression
  | sleep
  | general
deriving DecidableEq

/-- `stress_guide` from the source, exact text. -/
def stress_guide : String :=
  "\n😌 *Coping with Stress*\n\n1. Take short breaks every 1–2 hours of work/study.  \n2. Practice deep breathing (inhale 4s, exhale 6s).  \n3. Break big tasks into smaller ones.  \n4. Write down your worries, then list 1 small action for each.  \n5. Try light exercise (walk, stretch, yoga).  \n"

/-- `panic_guide` from the source, exact text. -/
def panic_guide : String :=
  "\n😮‍💨 *Panic/Anxiety Attack Help*\n\n1. Remind yourself: \"This will pass.\"  \n2. Try 4-7-8 breathing (inhale 4s, hold 7s, exhale 8s).  \n3. Use grounding: 5 things you see, 4 touch, 3 hear, 2 smell, 1 taste.  \n4. Splash cold water on your face.  \n"

/-- `depression_guide` from the source, exact text. -/
def depression_guide : String :=
  "\n🌧 *When Feeling Low/Depressed*\n\n1. Keep a daily routine (wake/sleep times).  \n2. Schedule at least one enjoyable activity daily.  \n3. Reach out to a friend or family member, even briefly.  \n4. Avoid isolation—spend time in sunlight/nature.  \n5. Journal your feelings, note small positives each day.  \n"

/-- `sleep_guide` from the source, exact text. -/
def sleep_guide : String :=
  "\n🌙 *Better Sleep Tips*\n\n1. Keep a fixed bedtime and wake-up time.  \n2. Avoid caffeine or phone screens 2 hours before bed.  \n3. Use relaxation routines: soft music, reading, or meditation.  \n4. Keep your room dark, cool, and quiet.  \n"

/-- `resources` (crisis resources block) from the source, exact text. -/
def resources : String :=
  "\n📞 *Crisis Resources*\n\n- 988 Suicide & Crisis Lifeline: Call/text 988 (24/7, free, confidential).  \n- Crisis Text Line: Text HOME to 741741 (free, anonymous, 24/7).  \n- Soluna App: Free for ages 13–25 (iOS/Android).  \n\n⚠ Reminder: This app is not medical advice—please consult a licensed professional if you’re in crisis.\n"

/-- The literal apology string returned as the last resort by
`generate_response`. -/
def apology_text : String :=
  "Sorry, I couldn’t generate advice right now. Please try again later."

/-- Python's substring test `needle in hay` on character lists:
true iff `needle` occurs contiguously in `hay` (the empty needle always
occurs). -/
def strInChars (needle : List Char) : List Char → Bool
  | [] => needle.isEmpty
  | c :: rest => needle.isPrefixOf (c :: rest) || strInChars needle rest

/-- Python's `needle in hay` on strings. -/
def strIn (needle hay : String) : Bool :=
  strInChars needle.data hay.data

/-- Python's `any(word in text for word in words)`. -/
def containsAny (text : String) (words : List String) : Bool :=
  words.any fun w => strIn w text

/-- Python's `str.lower()` (the source only ever lowercases ASCII
keywords and free text, where `Char.toLower` agrees with Python). -/
def pyLower (s : String) : String :=
  ⟨s.data.map Char.toLower⟩

/-- Python's `str.strip()`: drop whitespace from both ends. -/
def pyStrip (s : String) : String :=
  ⟨((s.data.dropWhile Char.isWhitespace).reverse.dropWhile Char.isWhitespace).reverse⟩

/-- One fuel-indexed pass of Python's `str.replace(old, "")`: delete every
non-overlapping occurrence of `old`, scanning left to right.  The fuel is
the length of the scanned list, which bounds the number of steps. -/
def removeOccsFuel (old : List Char) : Nat → List Char → List Char
  | _, [] => []
  | 0, l => l
  | Nat.succ n, c :: rest =>
      if !old.isEmpty && old.isPrefixOf (c :: rest) then
        removeOccsFuel old n (List.drop (old.length - 1) rest)
      else
        c :: removeOccsFuel old n rest

/-- Python's `s.replace(old, "")` (as used on line 201 of the source).
For `old = ""` Python returns `s` unchanged, which the empty-needle guard
reproduces. -/
def pyReplaceEmpty (s old : String) : String :=
  ⟨removeOccsFuel old.data s.data.length s.data⟩

/-- The two optional external collaborators of the process:
`gemini` models `GEMINI_MODEL` (`none` when not configured; the function
maps the prompt to `some text` for a successful reply carrying a `text`
attribute, `none` for an exception or a reply without text) and
`generator` models the Hugging Face `generator` pipeline (`none` when not
loaded; `some s` is the `generated_text` of a successful non-empty list
result, `none` an exception or a malformed result). -/
structure Config where
  gemini : Option (String → Option String)
  generator : Option (String → Option String)

/-- The keyword list of the panic arm (source line 170). -/
def panic_words : List String := ["panic", "anxiety", "attack"]

/-- The keyword list of the stress arm (source line 172). -/
def stress_words : List String := ["stress", "stressed", "pressure"]

/-- The keyword list of the depression arm (source line 174). -/
def depression_words : List String := ["depressed", "sad", "low", "hopeless"]

/-- The keyword list of the sleep arm (source line 176). -/
def sleep_words : List String := ["sleep", "insomnia", "tired"]

/-- `expand_with_gemini` (source lines 137–157): with no Gemini handle the
base text is returned unchanged; otherwise a reply with truthy text is
appended after the marker, and any failure or empty text again returns the
base text unchanged. -/
def expand_with_gemini (cfg : Config) (base_text : String) : String :=
  match cfg.gemini with
  | none => base_text
  | some call =>
    match call ("Expand this wellness guide with 2–3 additional practical, empathetic tips:\n\n" ++ base_text) with
    | some t =>
        if t = "" then base_text
        else base_text ++ "\n\n💡 Extra AI Tips:\n" ++ pyStrip t
    | none => base_text

/-- The open-ended prompt of `generate_response` (source lines 179–183),
an f-string embedding the raw user input. -/
def mkPrompt (user_input : String) : String :=
  "You are a supportive mental health assistant.\nUser: '" ++ user_input ++ "'\nGive 3–5 clear, practical, empathetic tips."

/-- The Gemini attempt for open-ended prompts (source lines 186–192):
usable only when the handle exists and the reply has truthy text, in which
case the stripped text is the answer. -/
def gemini_open (cfg : Config) (prompt : String) : Option String :=
  match cfg.gemini with
  | some call =>
    match call prompt with
    | some t => if t = "" then none else some (pyStrip t)
    | none => none
  | none => none

/-- The Hugging Face fallback attempt (source lines 195–203): on a
successful list result the `generated_text` has the prompt removed and is
stripped; an exception or malformed result yields nothing. -/
def hf_fallback (cfg : Config) (prompt : String) : Option String :=
  match cfg.generator with
  | some gen =>
    match gen prompt with
    | some generated => some (pyStrip (pyReplaceEmpty generated prompt))
    | none => none
  | none => none

/-- The tail of `generate_response` after the four keyword arms: try
Gemini, then the local generator, then the apology (source lines 186–205). -/
def general_fallback (cfg : Config) (prompt : String) : String :=
  match gemini_open cfg prompt with
  | some r => r
  | none =>
    match hf_fallback cfg prompt with
    | some r => r
    | none => apology_text

/-- The body of `generate_response` (source lines 160–205) with the two
uses of the user input made explicit: `text` is the already lowered
`(user_input or "").lower()` used for keyword matching, and `prompt_user`
is the raw value interpolated into the open-ended prompt. -/
def generate_response_core (cfg : Config) (text prompt_user : String) : String :=
  if containsAny text panic_words then
    expand_with_gemini cfg (panic_guide ++ "\n\n" ++ resources)
  else if containsAny text stress_words then
    expand_with_gemini cfg stress_guide
  else if containsAny text depression_words then
    expand_with_gemini cfg (depression_guide ++ "\n\n" ++ resources)
  else if containsAny text sleep_words then
    expand_with_gemini cfg sleep_guide
  else
    general_fallback cfg (mkPrompt prompt_user)

/-- `generate_response` on a string input: `(user_input or "").lower()` is
`pyLower user_input` for every string, and the same string is interpolated
into the prompt. -/
def generate_response (cfg : Config) (user_input : String) : String :=
  generate_response_core cfg (pyLower user_input) user_input

/-- The classification implicit in the four keyword arms of
`generate_response` (source lines 168–177), named `classify` as in the
spec: lower-case the input and take the first matching topic in the fixed
order panic, stress, depression, sleep, else general. -/
def classify (user_input : String) : Topic :=
  if containsAny (pyLower user_input) panic_words then Topic.panic
  else if containsAny (pyLower user_input) stress_words then Topic.stress
  else if containsAny (pyLower user_input) depression_words then Topic.depression
  else if containsAny (pyLower user_input) sleep_words then Topic.sleep
  else Topic.general

/-- Parsed JSON values, the possible results of Flask's
`request.get_json(silent=True)` on a parseable body (`jnull` is JSON
`null`, parsed to Python `None`). -/
inductive JVal where
  | jnull
  | jbool (b : Bool)
  | jnum (n : Int)
  | jstr (s : String)
  | jarr (elems : List JVal)
  | jobj (fields : List (String × JVal))

/-- Python truthiness of a parsed JSON value. -/
def jTruthy : JVal → Bool
  | JVal.jnull => false
  | JVal.jbool b => b
  | JVal.jnum n => n != 0
  | JVal.jstr s => !s.data.isEmpty
  | JVal.jarr l => !l.isEmpty
  | JVal.jobj l => !l.isEmpty

/-- Python's `dict.get(key, default)` on the field list of a JSON object. -/
def dict_get (fields : List (String × JVal)) (key : String) (dflt : JVal) : JVal :=
  match fields with
  | [] => dflt
  | (k, v) :: rest => if k = key then v else dict_get rest key dflt

/-- Python's `str()` of a falsy parsed JSON value (the only non-string
values that reach the prompt f-string in `generate_response`, through
`(user_input or "")` evaluating to `""`): `None`, `False`, `0`, `[]` and
the empty dict. Strings are returned as themselves. -/
def pyStrFalsy : JVal → String
  | JVal.jnull => "None"
  | JVal.jbool _ => "False"
  | JVal.jnum _ => "0"
  | JVal.jstr s => s
  | JVal.jarr _ => "[]"
  | JVal.jobj _ => "\x7b\x7d"

/-- The `/api/respond` Flask handler (source lines 212–217).
`body = none` models an unparseable request body, where
`request.get_json(silent=True)` returns `None`; `data` is that result
coalesced through `or {}` (a falsy parse result also becomes the empty
dict).  `data.get("text", "")` requires `data` to be a dict — on any other
value Python raises `AttributeError`, modelled as `Except.error ()`.
`generate_response(user_text)` raises `AttributeError` from
`(user_input or "").lower()` exactly when `user_text` is truthy and not a
string; a falsy non-string is coalesced to `""` for classification while
`str(user_text)` is interpolated into the open-ended prompt. -/
def respond_handler (cfg : Config) (body : Option JVal) : Except Unit JVal :=
  let data := match body with
    | some v => if jTruthy v then v else JVal.jobj []
    | none => JVal.jobj []
  match data with
  | JVal.jobj fields =>
    match dict_get fields "text" (JVal.jstr "") with
    | JVal.jstr s =>
        Except.ok (JVal.jobj [("response", JVal.jstr (generate_response cfg s))])
    | v =>
        if jTruthy v then Except.error ()
        else Except.ok (JVal.jobj [("response",
          JVal.jstr (generate_response_core cfg "" (pyStrFalsy v)))])
  | _ => Except.error ()

/-- The HTTP status Flask reports for the handler's outcome: 200 on a
returned JSON body, 500 on an uncaught exception (`debug=False`). -/
def flask_status (cfg : Config) (body : Option JVal) : Nat :=
  match respond_handler cfg body with
  | Except.ok _ => 200
  | Except.error _ => 500

/-- One entry of the session mood log (source lines 307–311): a timestamp
(modelled as a number, `datetime.now()` formatted as `%Y-%m-%d %H:%M:%S`
is monotone in the clock) and the integer mood from the slider. -/
structure MoodEntry where
  date : Nat
  mood : Int
deriving DecidableEq

/-- The `Log Mood` handler: append one `{date, mood}` entry to the session
mood list. -/
def log_mood (moods : List MoodEntry) (now : Nat) (slider_value : Int) : List MoodEntry :=
  moods ++ [{ date := now, mood := slider_value }]

/-- Three consecutive `Log Mood` clicks with slider values 3, 5, 1 at
clock readings `t1, t2, t3`. -/
def demo_mood_log (t1 t2 t3 : Nat) : List MoodEntry :=
  log_mood (log_mood (log_mood [] t1 3) t2 5) t3 1

/-! ## Helper lemmas -/

/-- With no Gemini handle configured, `expand_with_gemini` is the
identity. -/
theorem expand_with_gemini_none (cfg : Config) (h : cfg.gemini = none) (b : String) :
    expand_with_gemini cfg b = b := by
  unfold expand_with_gemini
  rw [h]

/-- `expand_with_gemini` returns the base text unchanged or with a suffix
appended after it. -/
theorem expand_with_gemini_append (cfg : Config) (b : String) :
    expand_with_gemini cfg b = b ∨ ∃ t, expand_with_gemini cfg b = b ++ t := by
  cases hg : cfg.gemini with
  | none => exact Or.inl (expand_with_gemini_none cfg hg b)
  | some call =>
    have he : expand_with_gemini cfg b =
        match call ("Expand this wellness guide with 2–3 additional practical, empathetic tips:\n\n" ++ b) with
        | some t =>
            if t = "" then b
            else b ++ "\n\n💡 Extra AI Tips:\n" ++ pyStrip t
        | none => b := by
      unfold expand_with_gemini
      rw [hg]
    cases hc : call ("Expand this wellness guide with 2–3 additional practical, empathetic tips:\n\n" ++ b) with
    | none =>
      rw [hc] at he
      exact Or.inl he
    | some t =>
      rw [hc] at he
      dsimp only at he
      by_cases ht : t = ""
      · rw [if_pos ht] at he
        exact Or.inl he
      · rw [if_neg ht] at he
        exact Or.inr ⟨"\n\n💡 Extra AI Tips:\n" ++ pyStrip t, by rw [he, String.append_assoc]⟩

/-- Anything the base text starts with is a prefix of the expanded text. -/
theorem pre_prefix_expand (cfg : Config) (pre b : String) (rest : List Char)
    (h : b.data = pre.data ++ rest) :
    List.IsPrefix pre.data (expand_with_gemini cfg b).data := by
  rcases expand_with_gemini_append cfg b with he | ⟨t, he⟩
  · rw [he, h]
    exact List.prefix_append _ _
  · rw [he]
    show List.IsPrefix pre.data (b.data ++ t.data)
    rw [h, List.append_assoc]
    exact List.prefix_append _ _

/-- When the base text ends in the crisis-resources block, the block is a
contiguous part of the expanded text. -/
theorem resources_infix_expand (cfg : Config) (b : String) (pre : List Char)
    (h : b.data = pre ++ resources.data) :
    List.IsInfix resources.data (expand_with_gemini cfg b).data := by
  rcases expand_with_gemini_append cfg b with he | ⟨t, he⟩
  · rw [he, h]
    exact ⟨pre, [], by simp⟩
  · rw [he]
    refine ⟨pre, t.data, ?_⟩
    show pre ++ resources.data ++ t.data = b.data ++ t.data
    rw [h]

/-- `generate_response` branches exactly on the implicit classification:
each guided topic yields the expansion of its base text, and the general
topic yields the Gemini → generator → apology chain. -/
theorem generate_response_by_topic (cfg : Config) (s : String) :
    generate_response cfg s =
      match classify s with
      | Topic.panic => expand_with_gemini cfg (panic_guide ++ "\n\n" ++ resources)
      | Topic.stress => expand_with_gemini cfg stress_guide
      | Topic.depression => expand_with_gemini cfg (depression_guide ++ "\n\n" ++ resources)
      | Topic.sleep => expand_with_gemini cfg sleep_guide
      | Topic.general => general_fallback cfg (mkPrompt s) := by
  unfold generate_response generate_response_core classify
  cases h1 : containsAny (pyLower s) panic_words <;>
  cases h2 : containsAny (pyLower s) stress_words <;>
  cases h3 : containsAny (pyLower s) depression_words <;>
  cases h4 : containsAny (pyLower s) sleep_words <;>
  simp [h1, h2, h3, h4]

/-! ## Claim theorems -/

/-- C1: for every configuration of the external services and every input
string, `generate_response` is a total function into strings whose result
is always one of the finitely many branch outcomes — a (possibly
expanded) guide for a guided topic, a Gemini or local-generator answer for
the general topic, and in the worst case the fixed apology string.  No
exception escapes: every failure of a service is `none` and is absorbed by
the fallback chain. -/
theorem generate_response_never_raises (cfg : Config) (s : String) :
    (classify s = Topic.panic ∧
        generate_response cfg s = expand_with_gemini cfg (panic_guide ++ "\n\n" ++ resources))
  ∨ (classify s = Topic.stress ∧
        generate_response cfg s = expand_with_gemini cfg stress_guide)
  ∨ (classify s = Topic.depression ∧
        generate_response cfg s = expand_with_gemini cfg (depression_guide ++ "\n\n" ++ resources))
  ∨ (classify s = Topic.sleep ∧
        generate_response cfg s = expand_with_gemini cfg sleep_guide)
  ∨ (classify s = Topic.general ∧
        ((∃ r, gemini_open cfg (mkPrompt s) = some r ∧ generate_response cfg s = r)
        ∨ (∃ r, hf_fallback cfg (mkPrompt s) = some r ∧ generate_response cfg s = r)
        ∨ generate_response cfg s = apology_text)) := by
  have hb := generate_response_by_topic cfg s
  cases hc : classify s
  case stress =>
    rw [hc] at hb
    exact Or.inr (Or.inl ⟨rfl, hb⟩)
  case panic =>
    rw [hc] at hb
    exact Or.inl ⟨rfl, hb⟩
  case depression =>
    rw [hc] at hb
    exact Or.inr (Or.inr (Or.inl ⟨rfl, hb⟩))
  case sleep =>
    rw [hc] at hb
    exact Or.inr (Or.inr (Or.inr (Or.inl ⟨rfl, hb⟩)))
  case general =>
    rw [hc] at hb
    dsimp only at hb
    refine Or.inr (Or.inr (Or.inr (Or.inr ⟨rfl, ?_⟩)))
    cases hg : gemini_open cfg (mkPrompt s) with
    | some r =>
      refine Or.inl ⟨r, rfl, ?_⟩
      rw [hb]
      unfold general_fallback
      rw [hg]
    | none =>
      cases hf : hf_fallback cfg (mkPrompt s) with
      | some r =>
        refine Or.inr (Or.inl ⟨r, rfl, ?_⟩)
        rw [hb]
        unfold general_fallback
        rw [hg, hf]
      | none =>
        refine Or.inr (Or.inr ?_)
        rw [hb]
        unfold general_fallback
        rw [hg, hf]

/-- C2: classification is a total, deterministic function: every input
string is mapped to exactly one of the five topics, and which one is fully
determined by the keyword matches, ties broken by the fixed first-match
order panic, stress, depression, sleep, general. -/
theorem classify_total_deterministic (s : String) :
    (∃! t : Topic, classify s = t)
  ∧ (classify s = Topic.panic ↔ containsAny (pyLower s) panic_words = true)
  ∧ (classify s = Topic.stress ↔
      (containsAny (pyLower s) panic_words = false
        ∧ containsAny (pyLower s) stress_words = true))
  ∧ (classify s = Topic.depression ↔
      (containsAny (pyLower s) panic_words = false
        ∧ containsAny (pyLower s) stress_words = false
        ∧ containsAny (pyLower s) depression_words = true))
  ∧ (classify s = Topic.sleep ↔
      (containsAny (pyLower s) panic_words = false
        ∧ containsAny (pyLower s) stress_words = false
        ∧ containsAny (pyLower s) depression_words = false
        ∧ containsAny (pyLower s) sleep_words = true))
  ∧ (classify s = Topic.general ↔
      (containsAny (pyLower s) panic_words = false
        ∧ containsAny (pyLower s) stress_words = false
        ∧ containsAny (pyLower s) depression_words = false
        ∧ containsAny (pyLower s) sleep_words = false)) := by
  constructor
  · exact ⟨classify s, rfl, fun t ht => ht.symm⟩
  · unfold classify
    cases h1 : containsAny (pyLower s) panic_words <;>
    cases h2 : containsAny (pyLower s) stress_words <;>
    cases h3 : containsAny (pyLower s) depression_words <;>
    cases h4 : containsAny (pyLower s) sleep_words <;>
    simp [h1, h2, h3, h4]

/-- C3: an input whose lowered text contains both a panic keyword and a
stress keyword classifies as panic, because the panic arm is checked
first. -/
theorem panic_over_stress (s : String)
    (hp : containsAny (pyLower s) panic_words = true)
    (hs : containsAny (pyLower s) stress_words = true) :
    classify s = Topic.panic := by
  unfold classify
  rw [hp]
  rfl

set_option maxRecDepth 40000 in
/-- Witness for C3 at the spec's example input. -/
theorem panic_over_stress_witness :
    containsAny (pyLower "I'm stressed and having a panic attack") panic_words = true
  ∧ containsAny (pyLower "I'm stressed and having a panic attack") stress_words = true
  ∧ classify "I'm stressed and having a panic attack" = Topic.panic :=
  ⟨by decide, by decide, panic_over_stress _ (by decide) (by decide)⟩

set_option maxRecDepth 100000 in
/-- C4: the crisis-resources block is part of the selected base text (and
hence of the response, wherever expansion only appends) exactly for the
panic and depression topics; for the stress and sleep topics the response
never contains it (stated for the observable output with no Gemini handle,
since an external expansion could echo arbitrary text). -/
theorem crisis_resources_exactly (cfg : Config) (s : String) :
    (classify s = Topic.panic →
        List.IsInfix resources.data (generate_response cfg s).data)
  ∧ (classify s = Topic.depression →
        List.IsInfix resources.data (generate_response cfg s).data)
  ∧ (classify s = Topic.stress → cfg.gemini = none →
        strIn resources (generate_response cfg s) = false)
  ∧ (classify s = Topic.sleep → cfg.gemini = none →
        strIn resources (generate_response cfg s) = false) := by
  have hb := generate_response_by_topic cfg s
  refine ⟨?_, ?_, ?_, ?_⟩
  · intro hc
    rw [hc] at hb
    dsimp only at hb
    rw [hb]
    exact resources_infix_expand cfg _ (panic_guide ++ "\n\n").data rfl
  · intro hc
    rw [hc] at hb
    dsimp only at hb
    rw [hb]
    exact resources_infix_expand cfg _ (depression_guide ++ "\n\n").data rfl
  · intro hc hg
    rw [hc] at hb
    dsimp only at hb
    rw [hb, expand_with_gemini_none cfg hg]
    decide
  · intro hc hg
    rw [hc] at hb
    dsimp only at hb
    rw [hb, expand_with_gemini_none cfg hg]
    decide

set_option maxRecDepth 40000 in
/-- Witness for C4 at one concrete input per topic, with no services
configured. -/
theorem crisis_resources_exactly_witness :
    List.IsInfix resources.data (generate_response ⟨none, none⟩ "panic").data
  ∧ List.IsInfix resources.data (generate_response ⟨none, none⟩ "depressed").data
  ∧ strIn resources (generate_response ⟨none, none⟩ "stressed") = false
  ∧ strIn resources (generate_response ⟨none, none⟩ "tired") = false :=
  ⟨(crisis_resources_exactly ⟨none, none⟩ "panic").1 (by decide),
   (crisis_resources_exactly ⟨none, none⟩ "depressed").2.1 (by decide),
   (crisis_resources_exactly ⟨none, none⟩ "stressed").2.2.1 (by decide) rfl,
   (crisis_resources_exactly ⟨none, none⟩ "tired").2.2.2 (by decide) rfl⟩

set_option maxRecDepth 40000 in
/-- C5: with no Gemini handle configured, the response to "I can't sleep"
is exactly the static sleep guide, unmodified. -/
theorem sleep_guide_exact (cfg : Config) (h : cfg.gemini = none) :
    generate_response cfg "I can't sleep" = sleep_guide := by
  have hc : classify "I can't sleep" = Topic.sleep := by decide
  rw [generate_response_by_topic cfg "I can't sleep", hc]
  exact expand_with_gemini_none cfg h sleep_guide

/-- Witness for C5 with both services absent. -/
theorem sleep_guide_exact_witness :
    (Config.mk none none).gemini = none
  ∧ generate_response ⟨none, none⟩ "I can't sleep" = sleep_guide :=
  ⟨rfl, sleep_guide_exact ⟨none, none⟩ rfl⟩

/-- C6: when every external service is disabled or unreachable — the
Gemini handle absent or its call on the prompt producing nothing, and the
local generator unavailable or its call producing nothing — and the input
classifies as general, the response is exactly the fixed apology string. -/
theorem total_failure_apology (cfg : Config) (s : String)
    (hg : cfg.gemini = none
      ∨ ∃ call, cfg.gemini = some call ∧ call (mkPrompt s) = none)
    (hh : cfg.generator = none
      ∨ ∃ gen, cfg.generator = some gen ∧ gen (mkPrompt s) = none)
    (hc : classify s = Topic.general) :
    generate_response cfg s = apology_text := by
  rw [generate_response_by_topic cfg s, hc]
  show general_fallback cfg (mkPrompt s) = apology_text
  have hgo : gemini_open cfg (mkPrompt s) = none := by
    rcases hg with h | ⟨call, hcall, hnone⟩
    · unfold gemini_open
      rw [h]
    · have h1 : gemini_open cfg (mkPrompt s) =
          match call (mkPrompt s) with
          | some t => if t = "" then none else some (pyStrip t)
          | none => none := by
        unfold gemini_open
        rw [hcall]
      rw [hnone] at h1
      exact h1
  have hfo : hf_fallback cfg (mkPrompt s) = none := by
    rcases hh with h | ⟨gen, hgen, hnone⟩
    · unfold hf_fallback
      rw [h]
    · have h1 : hf_fallback cfg (mkPrompt s) =
          match gen (mkPrompt s) with
          | some generated => some (pyStrip (pyReplaceEmpty generated (mkPrompt s)))
          | none => none := by
        unfold hf_fallback
        rw [hgen]
      rw [hnone] at h1
      exact h1
  unfold general_fallback
  rw [hgo, hfo]

set_option maxRecDepth 40000 in
/-- Witness for C6 at a general input with both services configured but
failing on every call. -/
theorem total_failure_apology_witness :
    classify "hello" = Topic.general
  ∧ generate_response ⟨some (fun _ => none), some (fun _ => none)⟩ "hello" = apology_text :=
  ⟨by decide,
   total_failure_apology ⟨some (fun _ => none), some (fun _ => none)⟩ "hello"
     (Or.inr ⟨fun _ => none, rfl, rfl⟩) (Or.inr ⟨fun _ => none, rfl, rfl⟩) (by decide)⟩

/-- C7: with no external services configured, the response is a pure
function of the input text alone — any two calls (even across differently
built configurations, as long as both have no services) yield
byte-identical output for identical input. -/
theorem no_services_deterministic (cfgA cfgB : Config) (s : String)
    (h1 : cfgA.gemini = none) (h2 : cfgA.generator = none)
    (h3 : cfgB.gemini = none) (h4 : cfgB.generator = none) :
    generate_response cfgA s = generate_response cfgB s := by
  cases cfgA with
  | mk g1 r1 =>
    cases cfgB with
    | mk g2 r2 =>
      dsimp only at h1 h2 h3 h4
      subst h1
      subst h2
      subst h3
      subst h4
      rfl

/-- Witness for C7: two no-service configurations on the same input. -/
theorem no_services_deterministic_witness :
    generate_response ⟨none, none⟩ "hi" = generate_response ⟨none, none⟩ "hi" :=
  no_services_deterministic ⟨none, none⟩ ⟨none, none⟩ "hi" rfl rfl rfl rfl

/-- Unfolding equation for the handler on a parsed non-empty JSON
object body. -/
theorem respond_handler_obj_cons (cfg : Config) (p : String × JVal)
    (rest : List (String × JVal)) :
    respond_handler cfg (some (JVal.jobj (p :: rest))) =
      match dict_get (p :: rest) "text" (JVal.jstr "") with
      | JVal.jstr s =>
          Except.ok (JVal.jobj [("response", JVal.jstr (generate_response cfg s))])
      | v =>
          if jTruthy v then Except.error ()
          else Except.ok (JVal.jobj [("response",
            JVal.jstr (generate_response_core cfg "" (pyStrFalsy v)))]) := rfl

/-- Unfolding equation for the Flask status of a handler outcome. -/
theorem flask_status_eq (cfg : Config) (body : Option JVal) :
    flask_status cfg body =
      match respond_handler cfg body with
      | Except.ok _ => 200
      | Except.error _ => 500 := rfl

/-- C8 (counterexample to the claim as stated): a POST whose JSON body is
`{"text": 5}` makes `data.get("text", "")` produce the integer 5, on which
`(user_input or "").lower()` raises `AttributeError`, so Flask answers
with status 500, not 200. -/
theorem respond_error_status_counterexample :
    flask_status ⟨none, none⟩ (some (JVal.jobj [("text", JVal.jnum 5)])) = 500
  ∧ (500 : Nat) ≠ 200 := by
  constructor
  · rfl
  · decide

/-- A body parsing to a falsy JSON value (`null`, `false`, `0`, `""`,
`[]`, the empty object) is coalesced by `or {}` to the empty dict, whose
`"text"` default is the empty string. -/
theorem respond_handler_falsy (cfg : Config) (v : JVal) (hv : jTruthy v = false) :
    respond_handler cfg (some v) =
      Except.ok (JVal.jobj [("response", JVal.jstr (generate_response cfg ""))]) := by
  unfold respond_handler
  dsimp only
  rw [hv]
  rfl

/-- C8 (amended): for a POST whose body is unparseable (or parses to a
falsy JSON value, which `or {}` coalesces to the empty dict) or parses to
a JSON object whose `"text"` field is a string (or is absent, defaulting
to the empty string), the handler returns status 200 with body
`{"response": generate_response(text)}`. -/
theorem respond_route_amended (cfg : Config) (v : JVal)
    (fields : List (String × JVal)) (s : String) :
    (respond_handler cfg none =
        Except.ok (JVal.jobj [("response", JVal.jstr (generate_response cfg ""))])
      ∧ flask_status cfg none = 200)
  ∧ (jTruthy v = false →
      respond_handler cfg (some v) =
        Except.ok (JVal.jobj [("response", JVal.jstr (generate_response cfg ""))])
      ∧ flask_status cfg (some v) = 200)
  ∧ (dict_get fields "text" (JVal.jstr "") = JVal.jstr s →
      respond_handler cfg (some (JVal.jobj fields)) =
        Except.ok (JVal.jobj [("response", JVal.jstr (generate_response cfg s))])
      ∧ flask_status cfg (some (JVal.jobj fields)) = 200) := by
  refine ⟨⟨rfl, rfl⟩, ?_, ?_⟩
  · intro hv
    constructor
    · exact respond_handler_falsy cfg v hv
    · rw [flask_status_eq, respond_handler_falsy cfg v hv]
  · intro h
    cases fields with
    | nil =>
      have h' : JVal.jstr "" = JVal.jstr s := h
      cases h'
      exact ⟨rfl, rfl⟩
    | cons p rest =>
      constructor
      · rw [respond_handler_obj_cons cfg p rest, h]
      · rw [flask_status_eq, respond_handler_obj_cons cfg p rest, h]

/-- Witness for the amended C8 at concrete request bodies: a JSON `null`
body and an object body carrying a string `"text"`. -/
theorem respond_route_amended_witness :
    respond_handler ⟨none, none⟩ (some JVal.jnull) =
      Except.ok (JVal.jobj [("response",
        JVal.jstr (generate_response ⟨none, none⟩ ""))])
  ∧ respond_handler ⟨none, none⟩ (some (JVal.jobj [("text", JVal.jstr "hi")])) =
      Except.ok (JVal.jobj [("response",
        JVal.jstr (generate_response ⟨none, none⟩ "hi"))]) :=
  ⟨((respond_route_amended ⟨none, none⟩ JVal.jnull [] "").2.1 rfl).1,
   ((respond_route_amended ⟨none, none⟩ JVal.jnull
      [("text", JVal.jstr "hi")] "hi").2.2 rfl).1⟩

/-- C9: logging the moods 3, 5, 1 in sequence (at non-decreasing clock
readings, as `datetime.now()` yields on a monotone clock) produces a log
of exactly three entries, in that order, with non-decreasing timestamps. -/
theorem mood_log_three (t1 t2 t3 : Nat) (h12 : t1 ≤ t2) (h23 : t2 ≤ t3) :
    (demo_mood_log t1 t2 t3).length = 3
  ∧ List.map MoodEntry.mood (demo_mood_log t1 t2 t3) = [3, 5, 1]
  ∧ List.Chain' (fun a b => a ≤ b) (List.map MoodEntry.date (demo_mood_log t1 t2 t3)) := by
  refine ⟨rfl, rfl, ?_⟩
  show List.Chain' (fun a b => a ≤ b) [t1, t2, t3]
  exact List.chain'_cons.mpr ⟨h12, List.chain'_cons.mpr ⟨h23, List.chain'_singleton _⟩⟩

/-- Witness for C9 at concrete clock readings 0, 1, 2. -/
theorem mood_log_three_witness :
    (demo_mood_log 0 1 2).length = 3
  ∧ List.map MoodEntry.mood (demo_mood_log 0 1 2) = [3, 5, 1]
  ∧ List.Chain' (fun a b => a ≤ b) (List.map MoodEntry.date (demo_mood_log 0 1 2)) :=
  mood_log_three 0 1 2 (by decide) (by decide)

/-- C10: for every input classifying to a guided topic, the topic's static
guide text is a prefix of the response for every service configuration:
expansion only ever appends text after the selected base text. -/
theorem guide_prefix_of_response (cfg : Config) (s : String) :
    (classify s = Topic.panic →
        List.IsPrefix panic_guide.data (generate_response cfg s).data)
  ∧ (classify s = Topic.stress →
        List.IsPrefix stress_guide.data (generate_response cfg s).data)
  ∧ (classify s = Topic.depression →
        List.IsPrefix depression_guide.data (generate_response cfg s).data)
  ∧ (classify s = Topic.sleep →
        List.IsPrefix sleep_guide.data (generate_response cfg s).data) := by
  have hb := generate_response_by_topic cfg s
  refine ⟨?_, ?_, ?_, ?_⟩
  · intro hc
    rw [hc] at hb
    dsimp only at hb
    rw [hb]
    exact pre_prefix_expand cfg panic_guide _ ("\n\n" ++ resources).data
      (List.append_assoc panic_guide.data "\n\n".data resources.data)
  · intro hc
    rw [hc] at hb
    dsimp only at hb
    rw [hb]
    exact pre_prefix_expand cfg stress_guide _ [] (List.append_nil stress_guide.data).symm
  · intro hc
    rw [hc] at hb
    dsimp only at hb
    rw [hb]
    exact pre_prefix_expand cfg depression_guide _ ("\n\n" ++ resources).data
      (List.append_assoc depression_guide.data "\n\n".data resources.data)
  · intro hc
    rw [hc] at hb
    dsimp only at hb
    rw [hb]
    exact pre_prefix_expand cfg sleep_guide _ [] (List.append_nil sleep_guide.data).symm

set_option maxRecDepth 40000 in
/-- Witness for C10 at one concrete input per guided topic, with no
services configured. -/
theorem guide_prefix_of_response_witness :
    List.IsPrefix panic_guide.data (generate_response ⟨none, none⟩ "anxiety").data
  ∧ List.IsPrefix stress_guide.data (generate_response ⟨none, none⟩ "pressure").data
  ∧ List.IsPrefix depression_guide.data (generate_response ⟨none, none⟩ "hopeless").data
  ∧ List.IsPrefix sleep_guide.data (generate_response ⟨none, none⟩ "insomnia").data :=
  ⟨(guide_prefix_of_response ⟨none, none⟩ "anxiety").1 (by decide),
   (guide_prefix_of_response ⟨none, none⟩ "pressure").2.1 (by decide),
   (guide_prefix_of_response ⟨none, none⟩ "hopeless").2.2.1 (by decide),
   (guide_prefix_of_response ⟨none, none⟩ "insomnia").2.2.2 (by decide)⟩
